import Mathlib

/-
Shallow embedding of the buddy-timelapse repository (TypeScript).

The temp directory holding captured frames is modelled as an
Option (List String): none stands for a missing directory (readdirSync
throws), some files for a directory listing.  Wall-clock timestamps are
Int milliseconds.  Fallible filesystem and subprocess operations take
oracle arguments (mkdir success, spawn success, subprocess exit codes)
and return Except values where the source throws.
-/

/-- Starts-with test on the underlying character lists. -/
def strStartsWith (s pat : String) : Bool :=
  s.data.take pat.data.length == pat.data

/-- Ends-with test on the underlying character lists. -/
def strEndsWith (s pat : String) : Bool :=
  s.data.reverse.take pat.data.length == pat.data.reverse

/-- Frame-file filter used throughout src/timelapse/index.ts:
file.startsWith("img_") and file.endsWith(".jpg"). -/
def isFrameFile (f : String) : Bool :=
  strStartsWith f "img_" && strEndsWith f ".jpg"

/-- Base-10 digit-string value, as parseInt(ds, 10) on an all-digit string. -/
def parseDigits (ds : List Char) : Nat :=
  ds.foldl (fun acc c => acc * 10 + (c.toNat - 48)) 0

/-- Attempt of the regex img_(\d+)\.jpg at the head of the character list:
after the literal img_ a nonempty maximal digit run must be immediately
followed by the literal .jpg.  (Backtracking cannot shorten the greedy
digit run, since the character after a shortened run is a digit, not a
dot, so the maximal-run reading is exact.) -/
def frameMatchAt (cs : List Char) : Option Nat :=
  match cs with
  | 'i' :: 'm' :: 'g' :: '_' :: rest =>
    match rest.span Char.isDigit with
    | (ds, rest') =>
      if ds.isEmpty then none
      else if rest'.take 4 = ['.', 'j', 'p', 'g'] then some (parseDigits ds)
      else none
  | _ => none

/-- Leftmost match of the regex img_(\d+)\.jpg, as String.prototype.match. -/
def frameSearch : List Char → Option Nat
  | [] => none
  | c :: cs =>
    match frameMatchAt (c :: cs) with
    | some n => some n
    | none => frameSearch cs

/-- Frame number extracted from a file name; 0 when the regex does not
match, mirroring (match ? parseInt(match[1], 10) : 0). -/
def extractFrameNumber (f : String) : Nat :=
  (frameSearch f.data).getD 0

/-- Effect of mkdirSync(tempDir, recursive) on the modelled directory:
creates it empty when missing, leaves it unchanged otherwise. -/
def mkdirFs (d : Option (List String)) : Option (List String) :=
  match d with
  | none => some []
  | some files => some files

/-- clearFrames of TimelapseCapture: unlink every file matching the frame
pattern; a missing directory is tolerated (the catch swallows the error). -/
def clearFramesFs (d : Option (List String)) : Option (List String) :=
  match d with
  | none => none
  | some files => some (files.filter (fun f => !(isFrameFile f)))

/-- getCapturedFrameCount of TimelapseCapture: number of files matching
the frame pattern, 0 when the directory is missing. -/
def getCapturedFrameCount (d : Option (List String)) : Nat :=
  match d with
  | none => 0
  | some files => (files.filter isFrameFile).length

/-- The frame files currently present (empty for a missing directory). -/
def frameFilesIn (d : Option (List String)) : List String :=
  match d with
  | none => []
  | some files => files.filter isFrameFile

/-- getHighestFrameNumber of TimelapseCapture: 0 when no frame file
exists, otherwise the maximum extracted frame number (Math.max over the
mapped list; the fold with base 0 agrees since the list is nonempty and
the values are natural numbers). -/
def getHighestFrameNumber (d : Option (List String)) : Nat :=
  match d with
  | none => 0
  | some files =>
    let jpgFiles := files.filter isFrameFile
    if jpgFiles.isEmpty then 0
    else (jpgFiles.map extractFrameNumber).foldl max 0

/-- canResume of TimelapseCapture: getCapturedFrameCount() > 0. -/
def canResume (d : Option (List String)) : Bool :=
  decide (0 < getCapturedFrameCount d)

structure TimelapseConfig where
  rtspUrl : String
  tempDirectory : String
  captureInterval : Nat
  outputFramerate : Nat
  outputDirectory : String
deriving Repr, DecidableEq

inductive ProcStatus
  | running
  | exited
  | failed
deriving Repr, DecidableEq

/-- Mutable state of a TimelapseCapture instance.  The ChildProcess
handle is observable only through its lifecycle status, so the handle is
modelled as an optional status; none is the null handle. -/
structure CaptureState where
  captureProcess : Option ProcStatus
  isCapturing : Bool
  dir : Option (List String)
deriving Repr, DecidableEq

/-- Error kinds thrown by the timelapse module (TimelapseError messages). -/
inductive TimelapseErr
  | alreadyCapturing
  | mkdirFailed
  | spawnFailed
  | noFrames
  | outputMkdirFailed
  | assembleSpawnFailed
  | assembleExitCode (code : Int)
deriving Repr, DecidableEq

/-- Record of a successful ffmpeg capture spawn: the -start_number value
and the full argument list. -/
structure SpawnRec where
  startNumber : Nat
  args : List String
deriving Repr, DecidableEq

/-- Argument list of the ffmpeg capture process built in startCapture. -/
def ffmpegCaptureArgs (cfg : TimelapseConfig) (startNumber : Nat) : List String :=
  ["-rtsp_transport", "tcp",
   "-i", cfg.rtspUrl,
   "-vf", "fps=1/" ++ toString cfg.captureInterval,
   "-start_number", toString startNumber,
   "-y", cfg.tempDirectory ++ "/img_%05d.jpg"]

/-- startCapture(resumeIfPossible) of TimelapseCapture.  mkdirOk models
whether mkdirSync succeeds; spawnOk models whether the synchronous spawn
call returns a handle (false is a synchronous throw, in which case the
assignment to captureProcess never runs).  Returns the mutated state
together with either the spawn record or the thrown error. -/
def startCapture (cfg : TimelapseConfig) (s : CaptureState)
    (resumeIfPossible mkdirOk spawnOk : Bool) :
    CaptureState × Except TimelapseErr SpawnRec :=
  if s.isCapturing then (s, .error .alreadyCapturing)
  else if !mkdirOk then (s, .error .mkdirFailed)
  else
    let s1 : CaptureState := { s with dir := mkdirFs s.dir }
    let existingFrameCount := getCapturedFrameCount s1.dir
    let isResuming := resumeIfPossible && decide (0 < existingFrameCount)
    let startNumber := if isResuming then getHighestFrameNumber s1.dir + 1 else 1
    let s2 : CaptureState :=
      if isResuming then s1 else { s1 with dir := clearFramesFs s1.dir }
    if !spawnOk then (s2, .error .spawnFailed)
    else ({ s2 with captureProcess := some ProcStatus.running, isCapturing := true },
          .ok { startNumber := startNumber, args := ffmpegCaptureArgs cfg startNumber })

inductive KillSignal
  | SIGTERM
  | SIGKILL
deriving Repr, DecidableEq

/-- Grace window of stopCapture before the forced kill (setTimeout 5000). -/
def graceWindowMs : Nat := 5000

/-- Whether the subprocess exits within the grace window; the argument is
the exit delay in milliseconds after SIGTERM (none = never exits). -/
def exitsWithinGrace (t : Option Nat) : Bool :=
  match t with
  | some ms => decide (ms < graceWindowMs)
  | none => false

/-- stopCapture of TimelapseCapture: no-op when not capturing or the
handle is null; otherwise sends SIGTERM, and SIGKILL too when the process
has not exited within the grace window; in either case the promise
resolves with the handle cleared and isCapturing false.  Returns the new
state and the list of signals sent. -/
def stopCapture (s : CaptureState) (exitWithinMs : Option Nat) :
    CaptureState × List KillSignal :=
  if !s.isCapturing || s.captureProcess.isNone then (s, [])
  else if exitsWithinGrace exitWithinMs then
    ({ s with isCapturing := false, captureProcess := none }, [KillSignal.SIGTERM])
  else
    ({ s with isCapturing := false, captureProcess := none },
     [KillSignal.SIGTERM, KillSignal.SIGKILL])

/-- Result of the one-shot assembly encoder subprocess. -/
inductive EncoderResult
  | spawnErr
  | exited (code : Int)
deriving Repr, DecidableEq

/-- Argument list of the ffmpeg assembly process built in assembleVideo. -/
def ffmpegAssembleArgs (cfg : TimelapseConfig) (outputPath : String) : List String :=
  ["-framerate", toString cfg.outputFramerate,
   "-i", cfg.tempDirectory ++ "/img_%05d.jpg",
   "-c:v", "libx264",
   "-pix_fmt", "yuv420p",
   "-y", outputPath]

/-- assembleVideo of src/timelapse/index.ts: ensures the output directory
exists, rejects with the no-frames error when getCapturedFrameCount is 0,
then spawns the encoder and resolves exactly on exit code 0.  The frame
directory is never modified.  On success the encoder argument list is
returned as the record of the invocation. -/
def assembleVideo (cfg : TimelapseConfig) (d : Option (List String))
    (outputPath : String) (outMkdirOk : Bool) (enc : EncoderResult) :
    Except TimelapseErr (List String) :=
  if !outMkdirOk then .error .outputMkdirFailed
  else if getCapturedFrameCount d = 0 then .error .noFrames
  else
    match enc with
    | .spawnErr => .error .assembleSpawnFailed
    | .exited code =>
      if code = 0 then .ok (ffmpegAssembleArgs cfg outputPath)
      else .error (.assembleExitCode code)

/-- Events of one TimelapseCapture instance: the two public calls plus
the asynchronous exit and error events of the spawned process. -/
inductive CapEvent
  | startEv (resumeIfPossible mkdirOk spawnOk : Bool)
  | stopEv (exitWithinMs : Option Nat)
  | exitEv
  | errorEv
deriving Repr, DecidableEq

/-- One event step of the capture manager.  The exit and error handlers
registered in startCapture set isCapturing to false; the handle field
keeps the (now dead) ChildProcess object, as in the source. -/
def capStep (cfg : TimelapseConfig) (s : CaptureState) : CapEvent → CaptureState
  | .startEv r m sp => (startCapture cfg s r m sp).1
  | .stopEv t => (stopCapture s t).1
  | .exitEv =>
    match s.captureProcess with
    | some ProcStatus.running =>
      { s with captureProcess := some ProcStatus.exited, isCapturing := false }
    | _ => s
  | .errorEv =>
    match s.captureProcess with
    | some ProcStatus.running =>
      { s with captureProcess := some ProcStatus.failed, isCapturing := false }
    | _ => s

/-- State of a freshly constructed TimelapseCapture: null handle, not
capturing; the constructor does not touch the filesystem. -/
def initialCapture (d : Option (List String)) : CaptureState :=
  { captureProcess := none, isCapturing := false, dir := d }

/-- States of one TimelapseCapture instance reachable from construction
through any sequence of events. -/
inductive CapReachable (cfg : TimelapseConfig) (d : Option (List String)) :
    CaptureState → Prop
  | init : CapReachable cfg d (initialCapture d)
  | step (s : CaptureState) (e : CapEvent) :
      CapReachable cfg d s → CapReachable cfg d (capStep cfg s e)

/-- Printer states of the PrusaLink v1 status response (src/types/api.ts). -/
inductive PrinterState
  | IDLE
  | BUSY
  | PRINTING
  | PAUSED
  | FINISHED
  | STOPPED
  | ERROR
  | ATTENTION
  | READY
deriving Repr, DecidableEq

/-- Job section of the status response; only the optional id field is ever
read by the monitor (the other telemetry fields are never consulted). -/
structure StatusJob where
  id : Option Int
deriving Repr, DecidableEq

/-- The parts of the /api/v1/status response the monitor reads. -/
structure StatusSnap where
  printerState : PrinterState
  job : Option StatusJob
deriving Repr, DecidableEq

structure NotificationConfig where
  command : String
deriving Repr, DecidableEq

/-- Application configuration fields the monitor reads. -/
structure AppConfig where
  timelapse : TimelapseConfig
  notification : NotificationConfig
  pollInterval : Nat
  watchdogTimeout : Int
deriving Repr, DecidableEq

/-- Mutable state of a PrintMonitor instance. -/
structure MonState where
  cap : CaptureState
  currentPrintId : Option Int
  currentPrintFilename : Option String
  lastPrinterState : Option PrinterState
  watchdogExpiry : Option Int
  isFirstCheck : Bool
deriving Repr, DecidableEq

/-- State of a freshly constructed PrintMonitor over a temp directory. -/
def initialMonitor (d : Option (List String)) : MonState :=
  { cap := initialCapture d
    currentPrintId := none
    currentPrintFilename := none
    lastPrinterState := none
    watchdogExpiry := none
    isFirstCheck := true }

/-- Externally visible actions of one poll tick, in order. -/
inductive TraceAct
  | spawnedCapture (startNumber : Nat)
  | stoppedCapture
  | assembled (outputPath : String)
  | assembleFailed (outputPath : String)
  | notified (command : String)
  | notifyFailed (command : String)
deriving Repr, DecidableEq

/-- The job id stored by checkStatus: status.job?.id or null.  A missing
job section, a missing id, and the falsy id 0 all give null. -/
def jobIdOrNull (job : Option StatusJob) : Option Int :=
  match job with
  | none => none
  | some j =>
    match j.id with
    | none => none
    | some n => if n = 0 then none else some n

/-- Replacement for a character of the print-file name that the filename
sanitizer in generateOutputPath rewrites to an underscore. -/
def sanitizeChar (c : Char) : Char :=
  if c = '<' ∨ c = '>' ∨ c = ':' ∨ c = '"' ∨ c = '/' ∨ c = '\\' ∨ c = '|' ∨ c = '?' ∨ c = '*'
  then '_' else c

/-- Extension stripping of generateOutputPath: remove a final dot followed
by one or more characters none of which is a dot or a slash. -/
def stripExtension (name : String) : String :=
  match (name.data.reverse).span (fun c => !(c == '.' || c == '/')) with
  | (ext, rest) =>
    match rest with
    | '.' :: before => if ext.isEmpty then name else String.mk before.reverse
    | _ => name

/-- generateOutputPath of PrintMonitor: a sanitized print-file name with
the timestamp when a filename is known, otherwise the timestamp plus a
job suffix (absent for a null or falsy job id); resolved against the
output directory (path joining modelled as string concatenation). -/
def generateOutputPath (cfg : AppConfig) (currentPrintFilename : Option String)
    (jobId : Option Int) (timestamp : String) : String :=
  let filename :=
    match currentPrintFilename with
    | some printName =>
      let sanitizedName := String.mk ((stripExtension printName).data.map sanitizeChar)
      "timelapse_" ++ sanitizedName ++ "_" ++ timestamp ++ ".mp4"
    | none =>
      let jobSuffix :=
        match jobId with
        | some j => if j = 0 then "" else "_job" ++ toString j
        | none => ""
      "timelapse_" ++ timestamp ++ jobSuffix ++ ".mp4"
  cfg.timelapse.outputDirectory ++ "/" ++ filename

/-- Replacement of the first occurrence of a pattern, as the JavaScript
String.prototype.replace with a string pattern (only the first occurrence
is replaced). -/
def replaceFirst : List Char → List Char → List Char → List Char
  | [], _, _ => []
  | c :: cs, pat, rep =>
    if (c :: cs).take pat.length == pat then rep ++ (c :: cs).drop pat.length
    else c :: replaceFirst cs pat rep

def strReplaceFirst (s pat rep : String) : String :=
  String.mk (replaceFirst s.data pat.data rep.data)

/-- The shell command run by sendNotification, after template substitution. -/
def notifCommand (cfg : AppConfig) (outputPath : String) : String :=
  strReplaceFirst (strReplaceFirst cfg.notification.command "\x7boutputPath\x7d" outputPath)
    "\x7boutputDir\x7d" cfg.timelapse.outputDirectory

/-- sendNotification of PrintMonitor: runs the substituted command; a
nonzero exit or a spawn error is caught and logged inside the method, so
it never throws to its caller. -/
def sendNotification (cfg : AppConfig) (outputPath : String)
    (notifyExit : Option Int) : List TraceAct :=
  if notifyExit = some 0 then [TraceAct.notified (notifCommand cfg outputPath)]
  else [TraceAct.notifyFailed (notifCommand cfg outputPath)]

/-- Oracles for the stop/assemble/notify sequence of one tick: the delay
until the capture process exits after SIGTERM, the output-directory mkdir
outcome, the assembly encoder outcome, the notification command exit
code, and the timestamp string used in the output name. -/
structure FinishOracles where
  exitWithinMs : Option Nat
  outMkdirOk : Bool
  encoder : EncoderResult
  notifyExit : Option Int
  ts : String
deriving Repr, DecidableEq

/-- handlePrintFinished of PrintMonitor: clears the watchdog, returns at
once (dropping the print filename) when no capture is active; otherwise
stops the capture, assembles, and only after a successful assembly clears
the frames and sends the notification; an assembly failure leaves the
frames untouched.  The print filename is always cleared (finally block). -/
def handlePrintFinished (cfg : AppConfig) (st : MonState) (jobId : Option Int)
    (orc : FinishOracles) : MonState × List TraceAct :=
  let st0 : MonState := { st with watchdogExpiry := none }
  if !st0.cap.isCapturing then
    ({ st0 with currentPrintFilename := none }, [])
  else
    let cap1 := (stopCapture st0.cap orc.exitWithinMs).1
    let outputPath := generateOutputPath cfg st0.currentPrintFilename jobId orc.ts
    match assembleVideo cfg.timelapse cap1.dir outputPath orc.outMkdirOk orc.encoder with
    | .error _ =>
      ({ st0 with cap := cap1, currentPrintFilename := none },
       [TraceAct.stoppedCapture, TraceAct.assembleFailed outputPath])
    | .ok _ =>
      let cap2 : CaptureState := { cap1 with dir := clearFramesFs cap1.dir }
      ({ st0 with cap := cap2, currentPrintFilename := none },
       [TraceAct.stoppedCapture, TraceAct.assembled outputPath] ++
         sendNotification cfg outputPath orc.notifyExit)

/-- handlePrintStarted of PrintMonitor: rejects silently when a capture is
already active; fetches the job details (a throw there is caught and the
capture never starts); records the display name when present; clears any
existing frames when not resuming; starts the capture (a start failure is
caught and the watchdog is not armed); on success arms the watchdog when
the feature is enabled. -/
def handlePrintStarted (cfg : AppConfig) (st : MonState) (jobId : Int)
    (shouldResume : Bool) (getJobRes : Except Unit (Option String))
    (mkdirOk spawnOk : Bool) (now : Int) : MonState × List TraceAct :=
  if st.cap.isCapturing then (st, [])
  else
    match getJobRes with
    | .error _ => (st, [])
    | .ok displayName =>
      let st1 : MonState :=
        match displayName with
        | some name => { st with currentPrintFilename := some name }
        | none => st
      let cap1 : CaptureState :=
        if shouldResume then st1.cap
        else { st1.cap with dir := clearFramesFs st1.cap.dir }
      match startCapture cfg.timelapse cap1 shouldResume mkdirOk spawnOk with
      | (cap2, .error _) => ({ st1 with cap := cap2 }, [])
      | (cap2, .ok sr) =>
        let st2 : MonState := { st1 with cap := cap2 }
        let st3 : MonState :=
          if cfg.watchdogTimeout ≤ 0 then st2
          else { st2 with watchdogExpiry := some (now + cfg.watchdogTimeout * 1000) }
        (st3, [TraceAct.spawnedCapture sr.startNumber])

/-- resetWatchdog of PrintMonitor: extends the deadline only when the
feature is enabled and a capture is active. -/
def resetWatchdog (cfg : AppConfig) (st : MonState) (now : Int) : MonState :=
  if decide (cfg.watchdogTimeout ≤ 0) || !st.cap.isCapturing then st
  else { st with watchdogExpiry := some (now + cfg.watchdogTimeout * 1000) }

/-- Guard of checkWatchdog: false when the feature is disabled, no capture
is active, or no deadline is set; otherwise true exactly when the deadline
has been reached. -/
def watchdogExpired (cfg : AppConfig) (st : MonState) (now : Int) : Bool :=
  if decide (cfg.watchdogTimeout ≤ 0) || !st.cap.isCapturing then false
  else
    match st.watchdogExpiry with
    | none => false
    | some expiry => decide (expiry ≤ now)

/-- checkWatchdog of PrintMonitor: when the guard fires, runs
handlePrintFinished with the stored current print id; otherwise no-op. -/
def checkWatchdog (cfg : AppConfig) (st : MonState) (orc : FinishOracles)
    (now : Int) : MonState × List TraceAct :=
  if watchdogExpired cfg st now then
    handlePrintFinished cfg st st.currentPrintId orc
  else (st, [])

/-- checkStatus of PrintMonitor, one poll tick.  A status-fetch failure is
caught: the transition handling and the state stores are skipped, but the
watchdog is still checked.  On a successful fetch the tick runs the
first-poll handling or the steady-state transition chain, stores the
observed state and job id, and then checks the watchdog. -/
def checkStatus (cfg : AppConfig) (st : MonState)
    (fetchRes : Except Unit StatusSnap) (getJobRes : Except Unit (Option String))
    (mkdirOk spawnOk : Bool) (orc : FinishOracles) (now : Int) :
    MonState × List TraceAct :=
  match fetchRes with
  | .error _ => checkWatchdog cfg st orc now
  | .ok status =>
    let currentState := status.printerState
    let currentJobId := jobIdOrNull status.job
    let previousState := st.lastPrinterState
    let stepOut : MonState × List TraceAct :=
      if st.isFirstCheck then
        let stf : MonState := { st with isFirstCheck := false }
        match currentState, currentJobId with
        | PrinterState.PRINTING, some j =>
          if canResume stf.cap.dir then
            handlePrintStarted cfg stf j true getJobRes mkdirOk spawnOk now
          else
            handlePrintStarted cfg stf j false getJobRes mkdirOk spawnOk now
        | _, _ =>
          if canResume stf.cap.dir then
            ({ stf with cap := { stf.cap with dir := clearFramesFs stf.cap.dir } }, [])
          else (stf, [])
      else
        match currentJobId with
        | some j =>
          if previousState ≠ some PrinterState.PRINTING ∧
              currentState = PrinterState.PRINTING then
            handlePrintStarted cfg st j false getJobRes mkdirOk spawnOk now
          else if previousState = some PrinterState.PRINTING ∧
              currentState ≠ PrinterState.PRINTING then
            handlePrintFinished cfg st (some j) orc
          else if st.cap.isCapturing ∧ currentState = PrinterState.PRINTING then
            (resetWatchdog cfg st now, [])
          else (st, [])
        | none =>
          if previousState = some PrinterState.PRINTING ∧
              currentState ≠ PrinterState.PRINTING then
            handlePrintFinished cfg st none orc
          else if st.cap.isCapturing ∧ currentState = PrinterState.PRINTING then
            (resetWatchdog cfg st now, [])
          else (st, [])
    let st2 : MonState :=
      { stepOut.1 with lastPrinterState := some currentState, currentPrintId := currentJobId }
    let w := checkWatchdog cfg st2 orc now
    (w.1, stepOut.2 ++ w.2)

theorem getCapturedFrameCount_mkdirFs (d : Option (List String)) :
    getCapturedFrameCount (mkdirFs d) = getCapturedFrameCount d := by
  cases d <;> rfl

theorem getHighestFrameNumber_mkdirFs (d : Option (List String)) :
    getHighestFrameNumber (mkdirFs d) = getHighestFrameNumber d := by
  cases d <;> rfl

theorem frameFilesIn_mkdirFs (d : Option (List String)) :
    frameFilesIn (mkdirFs d) = frameFilesIn d := by
  cases d <;> rfl

theorem filter_frame_of_cleared (l : List String) :
    (l.filter (fun f => !(isFrameFile f))).filter isFrameFile = [] := by
  induction l with
  | nil => rfl
  | cons f fs ih => by_cases h : isFrameFile f <;> simp [List.filter_cons, h, ih]

theorem frameFilesIn_clearFramesFs (d : Option (List String)) :
    frameFilesIn (clearFramesFs d) = [] := by
  cases d with
  | none => rfl
  | some files => simpa [clearFramesFs, frameFilesIn] using filter_frame_of_cleared files

theorem getCapturedFrameCount_eq_length (d : Option (List String)) :
    getCapturedFrameCount d = (frameFilesIn d).length := by
  cases d <;> rfl

theorem frameFilesIn_eq_nil_of_count (d : Option (List String))
    (h : getCapturedFrameCount d = 0) : frameFilesIn d = [] := by
  rw [getCapturedFrameCount_eq_length] at h
  exact List.length_eq_zero.mp h

theorem startCapture_of_capturing (cfg : TimelapseConfig) (s : CaptureState)
    (r m sp : Bool) (h : s.isCapturing = true) :
    startCapture cfg s r m sp = (s, Except.error TimelapseErr.alreadyCapturing) := by
  simp [startCapture, h]

theorem startCapture_mkdir_fail (cfg : TimelapseConfig) (s : CaptureState)
    (r sp : Bool) (h : s.isCapturing = false) :
    startCapture cfg s r false sp = (s, Except.error TimelapseErr.mkdirFailed) := by
  simp [startCapture, h]

theorem startCapture_fields (cfg : TimelapseConfig) (s : CaptureState)
    (r sp : Bool) (h : s.isCapturing = false) :
    (startCapture cfg s r true sp).1.isCapturing = sp ∧
    (startCapture cfg s r true sp).1.captureProcess =
      (if sp then some ProcStatus.running else s.captureProcess) := by
  cases sp <;> simp [startCapture, h] <;> split <;> exact ⟨rfl, rfl⟩

/-- C1: at every reachable state of the capture manager the single
optional handle field holds at most one subprocess handle, isCapturing is
true exactly when the held handle is a live (running) process, and
calling startCapture while isCapturing is true throws AlreadyCapturing
with the state unchanged, spawning nothing. -/
theorem capture_single_handle_invariant (cfg : TimelapseConfig)
    (d : Option (List String)) (s : CaptureState) (h : CapReachable cfg d s) :
    (s.isCapturing = true ↔ s.captureProcess = some ProcStatus.running) ∧
    (s.isCapturing = true → ∀ r m sp,
      startCapture cfg s r m sp = (s, Except.error TimelapseErr.alreadyCapturing)) := by
  have guard : ∀ (s' : CaptureState), s'.isCapturing = true → ∀ r m sp,
      startCapture cfg s' r m sp = (s', Except.error TimelapseErr.alreadyCapturing) :=
    fun s' h' r m sp => startCapture_of_capturing cfg s' r m sp h'
  refine ⟨?_, fun hc => guard s hc⟩
  induction h with
  | init => simp [initialCapture]
  | step s' e hr ih =>
    cases e with
    | startEv r m sp =>
      by_cases hc : s'.isCapturing = true
      · simpa [capStep, guard s' hc r m sp] using ih
      · have hf : s'.isCapturing = false := by simpa using hc
        have hnp : s'.captureProcess ≠ some ProcStatus.running := fun hp => hc (ih.mpr hp)
        cases m with
        | false => simpa [capStep, startCapture_mkdir_fail cfg s' r sp hf] using ih
        | true =>
          obtain ⟨h1, h2⟩ := startCapture_fields cfg s' r sp hf
          cases sp with
          | true => simp [capStep, h1, h2]
          | false =>
            simp only [capStep, h1, h2, if_neg Bool.false_ne_true]
            simp [hnp]
    | stopEv t =>
      by_cases hc : s'.isCapturing = true
      · have hp := ih.mp hc
        simp only [capStep, stopCapture, hp, hc]
        split
        · simp_all
        · split <;> simp
      · have hf : s'.isCapturing = false := by simpa using hc
        simpa [capStep, stopCapture, hf] using ih
    | exitEv =>
      cases hp : s'.captureProcess with
      | none => simpa [capStep, hp] using ih
      | some st =>
        cases st with
        | running => simp [capStep, hp]
        | exited => simpa [capStep, hp] using ih
        | failed => simpa [capStep, hp] using ih
    | errorEv =>
      cases hp : s'.captureProcess with
      | none => simpa [capStep, hp] using ih
      | some st =>
        cases st with
        | running => simp [capStep, hp]
        | exited => simpa [capStep, hp] using ih
        | failed => simpa [capStep, hp] using ih

def cfgW : TimelapseConfig :=
  { rtspUrl := "rtsp://cam", tempDirectory := "/tmp/frames", captureInterval := 30,
    outputFramerate := 30, outputDirectory := "/out" }

def dirW : Option (List String) := some ["img_00003.jpg", "notes.txt"]

/-- A concrete reachable capture state with an active capture. -/
def sW : CaptureState := capStep cfgW (initialCapture dirW) (CapEvent.startEv true true true)

/-- Witness for C1 at a concrete reachable state with an active capture. -/
theorem capture_single_handle_invariant_witness :
    (sW.isCapturing = true ↔ sW.captureProcess = some ProcStatus.running) ∧
    (sW.isCapturing = true → ∀ r m sp,
      startCapture cfgW sW r m sp = (sW, Except.error TimelapseErr.alreadyCapturing)) :=
  capture_single_handle_invariant cfgW dirW sW
    (CapReachable.step (initialCapture dirW) (CapEvent.startEv true true true)
      CapReachable.init)

/-- Reduction of startCapture in the resuming case. -/
theorem startCapture_resuming (cfg : TimelapseConfig) (s : CaptureState)
    (h : s.isCapturing = false) (hcount : 0 < getCapturedFrameCount s.dir) :
    startCapture cfg s true true true =
      ({ captureProcess := some ProcStatus.running, isCapturing := true,
         dir := mkdirFs s.dir },
       Except.ok { startNumber := getHighestFrameNumber s.dir + 1,
                   args := ffmpegCaptureArgs cfg (getHighestFrameNumber s.dir + 1) }) := by
  have hc' : 0 < getCapturedFrameCount (mkdirFs s.dir) := by
    rwa [getCapturedFrameCount_mkdirFs]
  simp [startCapture, h, hc', getHighestFrameNumber_mkdirFs]

/-- Reduction of startCapture in the fresh (clearing) case. -/
theorem startCapture_fresh (cfg : TimelapseConfig) (s : CaptureState) (r : Bool)
    (h : s.isCapturing = false)
    (hres : (r && decide (0 < getCapturedFrameCount (mkdirFs s.dir))) = false) :
    startCapture cfg s r true true =
      ({ captureProcess := some ProcStatus.running, isCapturing := true,
         dir := clearFramesFs (mkdirFs s.dir) },
       Except.ok { startNumber := 1, args := ffmpegCaptureArgs cfg 1 }) := by
  simp [startCapture, h, hres]

/-- C2: with a successful spawn, startCapture resumes exactly when
resumeIfPossible is true and at least one frame file exists, launching at
getHighestFrameNumber() + 1 (strictly greater than the prior highest)
without deleting any frame file; otherwise every frame file is cleared
before the launch and the starting number is 1. -/
theorem startCapture_resume_or_fresh (cfg : TimelapseConfig) (s : CaptureState)
    (r : Bool) (h : s.isCapturing = false) :
    (r = true → 0 < getCapturedFrameCount s.dir →
      (startCapture cfg s r true true).2 =
        Except.ok { startNumber := getHighestFrameNumber s.dir + 1,
                    args := ffmpegCaptureArgs cfg (getHighestFrameNumber s.dir + 1) } ∧
      frameFilesIn (startCapture cfg s r true true).1.dir = frameFilesIn s.dir ∧
      getHighestFrameNumber s.dir < getHighestFrameNumber s.dir + 1) ∧
    ((r = false ∨ getCapturedFrameCount s.dir = 0) →
      (startCapture cfg s r true true).2 =
        Except.ok { startNumber := 1, args := ffmpegCaptureArgs cfg 1 } ∧
      frameFilesIn (startCapture cfg s r true true).1.dir = []) := by
  constructor
  · rintro rfl hcount
    rw [startCapture_resuming cfg s h hcount]
    exact ⟨rfl, by simpa using frameFilesIn_mkdirFs s.dir, Nat.lt_succ_self _⟩
  · intro hor
    have hres : (r && decide (0 < getCapturedFrameCount (mkdirFs s.dir))) = false := by
      rcases hor with hr | h0
      · simp [hr]
      · simp [getCapturedFrameCount_mkdirFs, h0]
    rw [startCapture_fresh cfg s r h hres]
    exact ⟨rfl, by simpa using frameFilesIn_clearFramesFs (mkdirFs s.dir)⟩

/-- Witness for C2: a resume launch at frame 4 over a directory whose
highest frame is 3, with the frame files untouched. -/
theorem startCapture_resume_or_fresh_witness :
    (startCapture cfgW (initialCapture dirW) true true true).2 =
      Except.ok { startNumber := 4, args := ffmpegCaptureArgs cfgW 4 } ∧
    frameFilesIn (startCapture cfgW (initialCapture dirW) true true true).1.dir =
      frameFilesIn dirW := by
  have hmain :=
    (startCapture_resume_or_fresh cfgW (initialCapture dirW) true rfl).1 rfl (by decide)
  have h3 : getHighestFrameNumber dirW = 3 := by rfl
  refine ⟨?_, hmain.2.1⟩
  have h1 := hmain.1
  rw [show getHighestFrameNumber (initialCapture dirW).dir = 3 from rfl] at h1
  exact h1

/-- C6: when the guard passes and mkdir succeeds, startCapture leaves
isCapturing equal to the spawn outcome: a synchronous spawn failure is
reported as a thrown start failure with the handle unchanged and
isCapturing still false, and a successful result implies the spawn
succeeded and isCapturing was set to true only then. -/
theorem startCapture_spawn_failure_gate (cfg : TimelapseConfig) (s : CaptureState)
    (r sp : Bool) (h : s.isCapturing = false) :
    (startCapture cfg s r true sp).1.isCapturing = sp ∧
    (sp = false →
      (startCapture cfg s r true sp).2 = Except.error TimelapseErr.spawnFailed ∧
      (startCapture cfg s r true sp).1.captureProcess = s.captureProcess) ∧
    (∀ sr, (startCapture cfg s r true sp).2 = Except.ok sr →
      sp = true ∧ (startCapture cfg s r true sp).1.isCapturing = true) := by
  refine ⟨(startCapture_fields cfg s r sp h).1, ?_, ?_⟩
  · rintro rfl
    constructor
    · simp [startCapture, h]
    · simpa using (startCapture_fields cfg s r false h).2
  · intro sr hok
    cases sp with
    | true => exact ⟨rfl, (startCapture_fields cfg s r true h).1⟩
    | false =>
      exfalso
      have herr : (startCapture cfg s r true false).2 = Except.error TimelapseErr.spawnFailed := by
        simp [startCapture, h]
      rw [herr] at hok
      exact Except.noConfusion hok

/-- Witness for C6: a synchronous spawn throw on a fresh manager leaves
isCapturing false and surfaces the spawn failure. -/
theorem startCapture_spawn_failure_gate_witness :
    (startCapture cfgW (initialCapture dirW) true true false).1.isCapturing = false ∧
    (startCapture cfgW (initialCapture dirW) true true false).2 =
      Except.error TimelapseErr.spawnFailed := by
  have hth := startCapture_spawn_failure_gate cfgW (initialCapture dirW) true false rfl
  exact ⟨hth.1, (hth.2.1 rfl).1⟩

/-- Form of stopCapture on an active capture with a non-null handle. -/
theorem stopCapture_active (s : CaptureState) (t : Option Nat)
    (hc : s.isCapturing = true) (hp : s.captureProcess.isNone = false) :
    stopCapture s t =
      ({ s with isCapturing := false, captureProcess := none },
       if exitsWithinGrace t then [KillSignal.SIGTERM]
       else [KillSignal.SIGTERM, KillSignal.SIGKILL]) := by
  simp only [stopCapture, hc, hp]
  split
  · simp_all
  · split <;> simp_all

/-- C7: stopCapture is a no-op when no capture is active; otherwise it
sends SIGTERM, adds SIGKILL exactly when the process does not exit within
the 5000 ms grace window, and in every case resolves with the handle
cleared and isCapturing false. -/
theorem stopCapture_contract (s : CaptureState) (t : Option Nat) :
    (s.isCapturing = false → stopCapture s t = (s, [])) ∧
    (s.isCapturing = true → s.captureProcess.isSome = true →
      (stopCapture s t).1.captureProcess = none ∧
      (stopCapture s t).1.isCapturing = false ∧
      (stopCapture s t).2 =
        (if exitsWithinGrace t then [KillSignal.SIGTERM]
         else [KillSignal.SIGTERM, KillSignal.SIGKILL]) ∧
      (exitsWithinGrace t = true ↔ ∃ ms, t = some ms ∧ ms < 5000)) := by
  constructor
  · intro hf
    simp [stopCapture, hf]
  · intro hc hp
    have hpn : s.captureProcess.isNone = false := by
      cases hcp : s.captureProcess with
      | none => rw [hcp] at hp; simp at hp
      | some v => simp
    have ha := stopCapture_active s t hc hpn
    refine ⟨by rw [ha], by rw [ha], by rw [ha], ?_⟩
    cases t with
    | none => simp [exitsWithinGrace]
    | some ms => simp [exitsWithinGrace, graceWindowMs]

/-- Witness for C7: a forced stop (no exit within the grace window) on an
active capture clears the handle and sends both signals; a stop on an
idle manager is a no-op. -/
theorem stopCapture_contract_witness :
    stopCapture (initialCapture dirW) (some 100) = (initialCapture dirW, []) ∧
    (stopCapture sW none).1.captureProcess = none ∧
    (stopCapture sW none).1.isCapturing = false ∧
    (stopCapture sW none).2 = [KillSignal.SIGTERM, KillSignal.SIGKILL] := by
  refine ⟨(stopCapture_contract (initialCapture dirW) (some 100)).1 rfl, ?_, ?_, ?_⟩
  · exact ((stopCapture_contract sW none).2 rfl rfl).1
  · exact ((stopCapture_contract sW none).2 rfl rfl).2.1
  · have h := ((stopCapture_contract sW none).2 rfl rfl).2.2.1
    simpa [exitsWithinGrace] using h

theorem stopCapture_dir (s : CaptureState) (t : Option Nat) :
    (stopCapture s t).1.dir = s.dir := by
  simp only [stopCapture]
  split
  · rfl
  · split <;> rfl

theorem handlePrintFinished_preserves (cfg : AppConfig) (st : MonState)
    (jobId : Option Int) (orc : FinishOracles) :
    (handlePrintFinished cfg st jobId orc).1.lastPrinterState = st.lastPrinterState ∧
    (handlePrintFinished cfg st jobId orc).1.currentPrintId = st.currentPrintId ∧
    (handlePrintFinished cfg st jobId orc).1.watchdogExpiry = none := by
  simp only [handlePrintFinished]
  split
  · exact ⟨rfl, rfl, rfl⟩
  · split <;> exact ⟨rfl, rfl, rfl⟩

theorem sendNotification_no_spawn (cfg : AppConfig) (p : String)
    (ne : Option Int) (n : Nat) :
    TraceAct.spawnedCapture n ∉ sendNotification cfg p ne := by
  simp only [sendNotification]
  split <;> simp

theorem handlePrintFinished_no_spawn (cfg : AppConfig) (st : MonState)
    (jobId : Option Int) (orc : FinishOracles) (n : Nat) :
    TraceAct.spawnedCapture n ∉ (handlePrintFinished cfg st jobId orc).2 := by
  simp only [handlePrintFinished]
  split
  · simp
  · split
    · simp
    · simp [sendNotification_no_spawn]

theorem assembleVideo_no_frames (cfgT : TimelapseConfig) (d : Option (List String))
    (p : String) (enc : EncoderResult) (h : getCapturedFrameCount d = 0) :
    assembleVideo cfgT d p true enc = Except.error TimelapseErr.noFrames := by
  simp [assembleVideo, h]

theorem assembleVideo_ok (cfgT : TimelapseConfig) (d : Option (List String))
    (p : String) (h : getCapturedFrameCount d ≠ 0) :
    assembleVideo cfgT d p true (EncoderResult.exited 0) =
      Except.ok (ffmpegAssembleArgs cfgT p) := by
  simp [assembleVideo, h]

/-- C5: assembleVideo rejects with the no-frames error whenever the frame
count is 0 at invocation time (with the output directory available), and
in the stop/assemble sequence of handlePrintFinished the frame directory
is left untouched whenever assembly fails; the frames are cleared only
after a successful assembly, by the caller. -/
theorem assemble_requires_frames_preserves_on_failure :
    (∀ (cfgT : TimelapseConfig) (d : Option (List String)) (p : String)
        (enc : EncoderResult),
      getCapturedFrameCount d = 0 →
      assembleVideo cfgT d p true enc = Except.error TimelapseErr.noFrames) ∧
    (∀ (cfg : AppConfig) (st : MonState) (jobId : Option Int) (orc : FinishOracles),
      st.cap.isCapturing = true →
      ((∃ e, assembleVideo cfg.timelapse st.cap.dir
            (generateOutputPath cfg st.currentPrintFilename jobId orc.ts)
            orc.outMkdirOk orc.encoder = Except.error e) →
        (handlePrintFinished cfg st jobId orc).1.cap.dir = st.cap.dir) ∧
      ((∃ v, assembleVideo cfg.timelapse st.cap.dir
            (generateOutputPath cfg st.currentPrintFilename jobId orc.ts)
            orc.outMkdirOk orc.encoder = Except.ok v) →
        (handlePrintFinished cfg st jobId orc).1.cap.dir =
          clearFramesFs st.cap.dir)) := by
  refine ⟨fun cfgT d p enc h => assembleVideo_no_frames cfgT d p enc h, ?_⟩
  intro cfg st jobId orc hc
  constructor
  · rintro ⟨e, hE⟩
    simp only [handlePrintFinished, stopCapture_dir, hc, Bool.not_true,
      Bool.false_eq_true, if_false]
    rw [hE]
    simp [stopCapture_dir]
  · rintro ⟨v, hV⟩
    simp only [handlePrintFinished, stopCapture_dir, hc, Bool.not_true,
      Bool.false_eq_true, if_false]
    rw [hV]

def cfgA : AppConfig :=
  { timelapse := cfgW, notification := { command := "curl \x7boutputPath\x7d" },
    pollInterval := 10, watchdogTimeout := 60 }

/-- A concrete monitor state in the middle of a capture. -/
def stCapturing : MonState :=
  { cap := { captureProcess := some ProcStatus.running, isCapturing := true, dir := dirW },
    currentPrintId := some 7, currentPrintFilename := none,
    lastPrinterState := some PrinterState.PRINTING, watchdogExpiry := some 0,
    isFirstCheck := false }

/-- Oracles for a tick whose assembly encoder exits nonzero. -/
def orcFail : FinishOracles :=
  { exitWithinMs := some 100, outMkdirOk := true, encoder := EncoderResult.exited 1,
    notifyExit := some 0, ts := "TS" }

/-- Witness for C5: an empty directory yields the no-frames error, and a
failed assembly leaves the frame directory exactly as it was. -/
theorem assemble_requires_frames_preserves_on_failure_witness :
    assembleVideo cfgW (some []) "/out/v.mp4" true (EncoderResult.exited 0) =
      Except.error TimelapseErr.noFrames ∧
    (handlePrintFinished cfgA stCapturing (some 7) orcFail).1.cap.dir =
      stCapturing.cap.dir := by
  constructor
  · exact assemble_requires_frames_preserves_on_failure.1 cfgW (some [])
      "/out/v.mp4" (EncoderResult.exited 0) rfl
  · exact (assemble_requires_frames_preserves_on_failure.2 cfgA stCapturing
      (some 7) orcFail rfl).1 ⟨TimelapseErr.assembleExitCode 1, by rfl⟩

theorem checkWatchdog_of_not_expired (cfg : AppConfig) (st : MonState)
    (orc : FinishOracles) (now : Int) (h : watchdogExpired cfg st now = false) :
    checkWatchdog cfg st orc now = (st, []) := by
  simp [checkWatchdog, h]

/-- C3: the watchdog check is false whenever the feature is disabled, no
capture is active, or no deadline is set, and otherwise fires exactly
when the deadline has been reached; on firing, checkWatchdog runs the
whole handlePrintFinished sequence with the last known job identifier
(independently of the observed printer state) and the deadline ends up
cleared; with successful stop/assemble/notify oracles and frames present
the full stop, assemble, notify trace is produced. -/
theorem checkWatchdog_expiry_contract (cfg : AppConfig) (st : MonState)
    (orc : FinishOracles) (now : Int) :
    (watchdogExpired cfg st now = true ↔
      (0 < cfg.watchdogTimeout ∧ st.cap.isCapturing = true ∧
        ∃ e, st.watchdogExpiry = some e ∧ e ≤ now)) ∧
    (watchdogExpired cfg st now = false → checkWatchdog cfg st orc now = (st, [])) ∧
    (watchdogExpired cfg st now = true →
      checkWatchdog cfg st orc now = handlePrintFinished cfg st st.currentPrintId orc ∧
      (checkWatchdog cfg st orc now).1.watchdogExpiry = none ∧
      (orc.outMkdirOk = true → orc.encoder = EncoderResult.exited 0 →
        orc.notifyExit = some 0 → getCapturedFrameCount st.cap.dir ≠ 0 →
        (checkWatchdog cfg st orc now).2 =
          [TraceAct.stoppedCapture,
           TraceAct.assembled
             (generateOutputPath cfg st.currentPrintFilename st.currentPrintId orc.ts),
           TraceAct.notified
             (notifCommand cfg
               (generateOutputPath cfg st.currentPrintFilename st.currentPrintId orc.ts))])) := by
  have hiff : watchdogExpired cfg st now = true ↔
      (0 < cfg.watchdogTimeout ∧ st.cap.isCapturing = true ∧
        ∃ e, st.watchdogExpiry = some e ∧ e ≤ now) := by
    unfold watchdogExpired
    split
    · rename_i hcond
      simp only [Bool.or_eq_true, decide_eq_true_eq, Bool.not_eq_true'] at hcond
      simp only [Bool.false_eq_true, false_iff]
      rintro ⟨h1, h2, _⟩
      rcases hcond with hl | hl
      · omega
      · rw [hl] at h2
        exact Bool.false_ne_true h2
    · rename_i hcond
      simp only [Bool.or_eq_true, decide_eq_true_eq, Bool.not_eq_true', not_or] at hcond
      obtain ⟨ht, hcap⟩ := hcond
      cases hE : st.watchdogExpiry with
      | none => simp
      | some e =>
        simp only [decide_eq_true_eq, hE]
        constructor
        · intro hle
          exact ⟨by omega, by simpa using hcap, e, rfl, hle⟩
        · rintro ⟨-, -, e', he', hle⟩
          cases he'
          exact hle
  refine ⟨hiff, fun h => checkWatchdog_of_not_expired cfg st orc now h, fun h => ?_⟩
  have hrun : checkWatchdog cfg st orc now = handlePrintFinished cfg st st.currentPrintId orc := by
    simp [checkWatchdog, h]
  refine ⟨hrun, ?_, ?_⟩
  · rw [hrun]
    exact (handlePrintFinished_preserves cfg st st.currentPrintId orc).2.2
  · intro hm he hn hf
    have hc : st.cap.isCapturing = true := (hiff.mp h).2.1
    have hAok : assembleVideo cfg.timelapse st.cap.dir
        (generateOutputPath cfg st.currentPrintFilename st.currentPrintId orc.ts) true
        (EncoderResult.exited 0) =
        Except.ok (ffmpegAssembleArgs cfg.timelapse
          (generateOutputPath cfg st.currentPrintFilename st.currentPrintId orc.ts)) :=
      assembleVideo_ok _ _ _ hf
    rw [hrun]
    simp only [handlePrintFinished, stopCapture_dir, hc, Bool.not_true,
      Bool.false_eq_true, if_false, hm, he]
    rw [hAok]
    simp [sendNotification, hn]

/-- Oracles for a fully successful stop/assemble/notify tick. -/
def orcGood : FinishOracles :=
  { exitWithinMs := some 100, outMkdirOk := true, encoder := EncoderResult.exited 0,
    notifyExit := some 0, ts := "TS" }

/-- Witness for C3: on an expired deadline the watchdog fires and runs the
full stop, assemble, notify sequence named after job 7. -/
theorem checkWatchdog_expiry_contract_witness :
    watchdogExpired cfgA stCapturing 1000 = true ∧
    (checkWatchdog cfgA stCapturing orcGood 1000).1.watchdogExpiry = none ∧
    (checkWatchdog cfgA stCapturing orcGood 1000).2 =
      [TraceAct.stoppedCapture,
       TraceAct.assembled (generateOutputPath cfgA none (some 7) "TS"),
       TraceAct.notified (notifCommand cfgA (generateOutputPath cfgA none (some 7) "TS"))] := by
  have h : watchdogExpired cfgA stCapturing 1000 = true := by rfl
  have hth := checkWatchdog_expiry_contract cfgA stCapturing orcGood 1000
  refine ⟨h, (hth.2.2 h).2.1, ?_⟩
  exact (hth.2.2 h).2.2 rfl rfl rfl (by decide)

theorem checkWatchdog_lastPrinterState (cfg : AppConfig) (st : MonState)
    (orc : FinishOracles) (now : Int) :
    (checkWatchdog cfg st orc now).1.lastPrinterState = st.lastPrinterState := by
  unfold checkWatchdog
  split
  · exact (handlePrintFinished_preserves cfg st st.currentPrintId orc).1
  · rfl

theorem checkWatchdog_currentPrintId (cfg : AppConfig) (st : MonState)
    (orc : FinishOracles) (now : Int) :
    (checkWatchdog cfg st orc now).1.currentPrintId = st.currentPrintId := by
  unfold checkWatchdog
  split
  · exact (handlePrintFinished_preserves cfg st st.currentPrintId orc).2.1
  · rfl

theorem checkWatchdog_no_spawn (cfg : AppConfig) (st : MonState)
    (orc : FinishOracles) (now : Int) (n : Nat) :
    TraceAct.spawnedCapture n ∉ (checkWatchdog cfg st orc now).2 := by
  unfold checkWatchdog
  split
  · exact handlePrintFinished_no_spawn cfg st st.currentPrintId orc n
  · simp

/-- C8: a tick whose status fetch fails reduces to the watchdog check
alone: the failure is absorbed inside the tick, the stored last observed
printer state and current job id are unchanged, and the watchdog is still
checked. -/
theorem checkStatus_fetch_failure_contract (cfg : AppConfig) (st : MonState)
    (getJobRes : Except Unit (Option String)) (mkOk spOk : Bool)
    (orc : FinishOracles) (now : Int) :
    checkStatus cfg st (Except.error ()) getJobRes mkOk spOk orc now =
      checkWatchdog cfg st orc now ∧
    (checkStatus cfg st (Except.error ()) getJobRes mkOk spOk orc now).1.lastPrinterState =
      st.lastPrinterState ∧
    (checkStatus cfg st (Except.error ()) getJobRes mkOk spOk orc now).1.currentPrintId =
      st.currentPrintId :=
  ⟨rfl, checkWatchdog_lastPrinterState cfg st orc now,
   checkWatchdog_currentPrintId cfg st orc now⟩

/-- C9: a status response carrying job id 0 is stored as a null job id,
and a non-PRINTING to PRINTING transition carrying job id 0 starts no
capture, since the start branch requires a non-null job id. -/
theorem job_id_zero_treated_absent (cfg : AppConfig) (st : MonState) (jb : StatusJob)
    (getJobRes : Except Unit (Option String)) (mkOk spOk : Bool)
    (orc : FinishOracles) (now : Int)
    (hid : jb.id = some 0)
    (h1 : st.isFirstCheck = false)
    (h2 : st.lastPrinterState ≠ some PrinterState.PRINTING) :
    jobIdOrNull (some jb) = none ∧
    (checkStatus cfg st
        (Except.ok { printerState := PrinterState.PRINTING, job := some jb })
        getJobRes mkOk spOk orc now).1.currentPrintId = none ∧
    ∀ n, TraceAct.spawnedCapture n ∉
      (checkStatus cfg st
        (Except.ok { printerState := PrinterState.PRINTING, job := some jb })
        getJobRes mkOk spOk orc now).2 := by
  have hnull : jobIdOrNull (some jb) = none := by simp [jobIdOrNull, hid]
  refine ⟨hnull, ?_, ?_⟩
  · simp only [checkStatus, hnull, h1, h2]
    simp [checkWatchdog_currentPrintId]
  · intro n
    simp only [checkStatus, hnull, h1, h2]
    simp [checkWatchdog_no_spawn]
    split <;> simp

/-- A concrete idle monitor state past its first poll. -/
def stIdle : MonState :=
  { cap := initialCapture dirW, currentPrintId := none, currentPrintFilename := none,
    lastPrinterState := some PrinterState.IDLE, watchdogExpiry := none,
    isFirstCheck := false }

/-- Witness for C9: a PRINTING response with job id 0 after an IDLE
observation stores a null job id and starts no capture. -/
theorem job_id_zero_treated_absent_witness :
    jobIdOrNull (some { id := some 0 }) = none ∧
    (checkStatus cfgA stIdle
        (Except.ok { printerState := PrinterState.PRINTING, job := some { id := some 0 } })
        (Except.ok none) true true orcGood 1000).1.currentPrintId = none ∧
    ∀ n, TraceAct.spawnedCapture n ∉
      (checkStatus cfgA stIdle
        (Except.ok { printerState := PrinterState.PRINTING, job := some { id := some 0 } })
        (Except.ok none) true true orcGood 1000).2 :=
  job_id_zero_treated_absent cfgA stIdle { id := some 0 } (Except.ok none) true true
    orcGood 1000 rfl rfl (by decide)

theorem watchdogExpired_of_not_capturing (cfg : AppConfig) (st : MonState)
    (now : Int) (h : st.cap.isCapturing = false) :
    watchdogExpired cfg st now = false := by
  simp [watchdogExpired, h]

/-- C10: a first poll reporting PRINTING without a usable job identifier
is handled like an inactive first observation: no capture starts, the
manager stays idle, and any stale frames are cleared. -/
theorem first_poll_printing_no_job_clears (cfg : AppConfig) (st : MonState)
    (jobField : Option StatusJob) (getJobRes : Except Unit (Option String))
    (mkOk spOk : Bool) (orc : FinishOracles) (now : Int)
    (h1 : st.isFirstCheck = true) (h2 : st.cap.isCapturing = false)
    (h3 : jobIdOrNull jobField = none) :
    (∀ n, TraceAct.spawnedCapture n ∉
      (checkStatus cfg st
        (Except.ok { printerState := PrinterState.PRINTING, job := jobField })
        getJobRes mkOk spOk orc now).2) ∧
    (checkStatus cfg st
        (Except.ok { printerState := PrinterState.PRINTING, job := jobField })
        getJobRes mkOk spOk orc now).1.cap.isCapturing = false ∧
    frameFilesIn (checkStatus cfg st
        (Except.ok { printerState := PrinterState.PRINTING, job := jobField })
        getJobRes mkOk spOk orc now).1.cap.dir = [] := by
  have hidle : ∀ (st2 : MonState), st2.cap.isCapturing = false →
      checkWatchdog cfg st2 orc now = (st2, []) := fun st2 hc =>
    checkWatchdog_of_not_expired cfg st2 orc now
      (watchdogExpired_of_not_capturing cfg st2 now hc)
  by_cases hcr : canResume st.cap.dir = true
  · refine ⟨?_, ?_, ?_⟩ <;>
      simp [checkStatus, h1, h3, hcr, hidle, h2, frameFilesIn_clearFramesFs]
  · have hcr' : canResume st.cap.dir = false := by simpa using hcr
    have hnil : frameFilesIn st.cap.dir = [] := by
      refine frameFilesIn_eq_nil_of_count st.cap.dir ?_
      have := hcr'
      simpa [canResume] using this
    refine ⟨?_, ?_, ?_⟩ <;>
      simp [checkStatus, h1, h3, hcr', hidle, hnil, h2]

/-- Witness for C10: a first poll reporting PRINTING with no job section
over a directory holding a stale frame clears it and starts nothing. -/
theorem first_poll_printing_no_job_clears_witness :
    (∀ n, TraceAct.spawnedCapture n ∉
      (checkStatus cfgA (initialMonitor dirW)
        (Except.ok { printerState := PrinterState.PRINTING, job := none })
        (Except.ok none) true true orcGood 1000).2) ∧
    (checkStatus cfgA (initialMonitor dirW)
        (Except.ok { printerState := PrinterState.PRINTING, job := none })
        (Except.ok none) true true orcGood 1000).1.cap.isCapturing = false ∧
    frameFilesIn (checkStatus cfgA (initialMonitor dirW)
        (Except.ok { printerState := PrinterState.PRINTING, job := none })
        (Except.ok none) true true orcGood 1000).1.cap.dir = [] :=
  first_poll_printing_no_job_clears cfgA (initialMonitor dirW) none (Except.ok none)
    true true orcGood 1000 rfl rfl rfl

/-- C4: on the first poll ever, with a successful spawn, a successful job
fetch and the watchdog enabled: a PRINTING report with a nonzero job id
resumes at getHighestFrameNumber + 1 with no frame deleted and arms the
watchdog when frames exist, starts fresh at frame 1 when none exist, and
a non-PRINTING report with existing frames clears them and starts no
capture. -/
theorem first_poll_transition_contract (cfg : AppConfig) (st : MonState)
    (disp : Option String) (orc : FinishOracles) (now : Int) (j : Int)
    (h1 : st.isFirstCheck = true) (h2 : st.cap.isCapturing = false)
    (hj : j ≠ 0) (hw : 0 < cfg.watchdogTimeout) :
    (canResume st.cap.dir = true →
      (checkStatus cfg st
        (Except.ok { printerState := PrinterState.PRINTING, job := some { id := some j } })
        (Except.ok disp) true true orc now).2 =
        [TraceAct.spawnedCapture (getHighestFrameNumber st.cap.dir + 1)] ∧
      (checkStatus cfg st
        (Except.ok { printerState := PrinterState.PRINTING, job := some { id := some j } })
        (Except.ok disp) true true orc now).1.cap.isCapturing = true ∧
      (checkStatus cfg st
        (Except.ok { printerState := PrinterState.PRINTING, job := some { id := some j } })
        (Except.ok disp) true true orc now).1.watchdogExpiry =
        some (now + cfg.watchdogTimeout * 1000) ∧
      frameFilesIn (checkStatus cfg st
        (Except.ok { printerState := PrinterState.PRINTING, job := some { id := some j } })
        (Except.ok disp) true true orc now).1.cap.dir = frameFilesIn st.cap.dir) ∧
    (canResume st.cap.dir = false →
      (checkStatus cfg st
        (Except.ok { printerState := PrinterState.PRINTING, job := some { id := some j } })
        (Except.ok disp) true true orc now).2 = [TraceAct.spawnedCapture 1] ∧
      (checkStatus cfg st
        (Except.ok { printerState := PrinterState.PRINTING, job := some { id := some j } })
        (Except.ok disp) true true orc now).1.cap.isCapturing = true ∧
      (checkStatus cfg st
        (Except.ok { printerState := PrinterState.PRINTING, job := some { id := some j } })
        (Except.ok disp) true true orc now).1.watchdogExpiry =
        some (now + cfg.watchdogTimeout * 1000)) ∧
    (∀ (ps : PrinterState) (jobField : Option StatusJob), ps ≠ PrinterState.PRINTING →
      canResume st.cap.dir = true →
      (checkStatus cfg st (Except.ok { printerState := ps, job := jobField })
        (Except.ok disp) true true orc now).2 = [] ∧
      (checkStatus cfg st (Except.ok { printerState := ps, job := jobField })
        (Except.ok disp) true true orc now).1.cap.isCapturing = false ∧
      frameFilesIn (checkStatus cfg st (Except.ok { printerState := ps, job := jobField })
        (Except.ok disp) true true orc now).1.cap.dir = []) := by
  have hjid : jobIdOrNull (some { id := some j }) = some j := by simp [jobIdOrNull, hj]
  have hnle : ¬ cfg.watchdogTimeout ≤ 0 := not_le.mpr hw
  have hlt : ¬ (now + cfg.watchdogTimeout * 1000 ≤ now) := by omega
  have hidle : ∀ (st2 : MonState), st2.cap.isCapturing = false →
      checkWatchdog cfg st2 orc now = (st2, []) := fun st2 hc =>
    checkWatchdog_of_not_expired cfg st2 orc now
      (watchdogExpired_of_not_capturing cfg st2 now hc)
  refine ⟨?_, ?_, ?_⟩
  · intro hcr
    have hcount : 0 < getCapturedFrameCount st.cap.dir := of_decide_eq_true hcr
    have hsc := startCapture_resuming cfg.timelapse st.cap h2 hcount
    cases disp <;>
      refine ⟨?_, ?_, ?_, ?_⟩ <;>
        simp [checkStatus, handlePrintStarted, hjid, h1, h2, hcr, hsc, hnle,
          watchdogExpired, hlt, checkWatchdog, frameFilesIn_mkdirFs]
  · intro hcr
    have hcr' : canResume st.cap.dir = false := hcr
    have hsc2 := startCapture_fresh cfg.timelapse
      { captureProcess := st.cap.captureProcess, isCapturing := false,
        dir := clearFramesFs st.cap.dir } false rfl (by simp)
    cases disp <;>
      refine ⟨?_, ?_, ?_⟩ <;>
        simp [checkStatus, handlePrintStarted, hjid, h1, h2, hcr', hsc2, hnle,
          watchdogExpired, hlt, checkWatchdog]
  · intro ps jobField hps hcr
    cases ps <;> first
      | exact absurd rfl hps
      | (refine ⟨?_, ?_, ?_⟩ <;>
          simp [checkStatus, h1, h2, hcr, hidle, frameFilesIn_clearFramesFs])

/-- Witness for C4: a first poll PRINTING with job id 7 over one existing
frame numbered 3 resumes at frame 4 and arms the watchdog, and a first
poll IDLE with stale frames starts nothing. -/
theorem first_poll_transition_contract_witness :
    (checkStatus cfgA (initialMonitor dirW)
      (Except.ok { printerState := PrinterState.PRINTING, job := some { id := some 7 } })
      (Except.ok none) true true orcGood 1000).2 =
      [TraceAct.spawnedCapture (getHighestFrameNumber (initialMonitor dirW).cap.dir + 1)] ∧
    (checkStatus cfgA (initialMonitor dirW)
      (Except.ok { printerState := PrinterState.PRINTING, job := some { id := some 7 } })
      (Except.ok none) true true orcGood 1000).1.watchdogExpiry =
      some (1000 + cfgA.watchdogTimeout * 1000) ∧
    (checkStatus cfgA (initialMonitor dirW)
      (Except.ok { printerState := PrinterState.IDLE, job := none })
      (Except.ok none) true true orcGood 1000).1.cap.isCapturing = false := by
  have hth := first_poll_transition_contract cfgA (initialMonitor dirW) none orcGood
    1000 7 rfl rfl (by decide) (by decide)
  have hcr : canResume (initialMonitor dirW).cap.dir = true := rfl
  exact ⟨(hth.1 hcr).1, (hth.1 hcr).2.2.1,
    (hth.2.2 PrinterState.IDLE none (by decide) hcr).2.1⟩
